import Mathlib

/-!
Verification of the frame-cadence and cross-device synchronization logic of
`optix_denoiser.cpp` (class `OptixDenoiserEngine`).

The C++ code is shallowly embedded: the user-facing settings become a
structure, the pure predicates (`needToDenoise`, `showDenoisedImage`) become
Lean functions over `Int` (the C++ fields are `int`; `%` on `int` is
truncated remainder, `Int.tmod`), the mutable frame counter `m_frame` and
timeline counter `m_fenceValue` become explicitly threaded state, and
`onRender`'s command-buffer recording becomes a function producing the list
of recorded command lists.
-/

namespace OptixDenoise

/-- The fields of `OptixDenoiserEngine::Settings` that the cadence logic
reads, plus defaults from the source (`maxFrames{200000}`,
`denoiseApply{true}`, `denoiseFirstFrame{false}`, `denoiseEveryNFrames{100}`). -/
structure Settings where
  maxFrames : Int
  denoiseApply : Bool
  denoiseFirstFrame : Bool
  denoiseEveryNFrames : Int
deriving DecidableEq, Repr

/-- The default-constructed `Settings` of the source. -/
def Settings.default : Settings :=
  { maxFrames := 200000, denoiseApply := true,
    denoiseFirstFrame := false, denoiseEveryNFrames := 100 }

/-- `OptixDenoiserEngine::needToDenoise` (optix_denoiser.cpp:924-936):
```
if(m_settings.denoiseApply) {
  if(m_frame == m_settings.maxFrames) return true;
  if(!m_settings.denoiseFirstFrame && m_frame == 0) return false;
  if(m_frame % m_settings.denoiseEveryNFrames == 0) return true;
}
return false;
```
C++ `%` on `int` is truncated remainder, i.e. `Int.tmod`. -/
def needToDenoise (s : Settings) (frame : Int) : Bool :=
  if s.denoiseApply then
    if frame = s.maxFrames then true
    else if !s.denoiseFirstFrame && frame = 0 then false
    else if Int.tmod frame s.denoiseEveryNFrames = 0 then true
    else false
  else false

/-- `OptixDenoiserEngine::showDenoisedImage` (optix_denoiser.cpp:971-975):
```
return m_settings.denoiseApply
       && ((m_frame >= m_settings.denoiseEveryNFrames)
           || m_settings.denoiseFirstFrame
           || (m_frame >= m_settings.maxFrames));
``` -/
def showDenoisedImage (s : Settings) (frame : Int) : Bool :=
  s.denoiseApply
    && (decide (frame ≥ s.denoiseEveryNFrames) || s.denoiseFirstFrame
        || decide (frame ≥ s.maxFrames))

/-- `OptixDenoiserEngine::resetFrame` (optix_denoiser.cpp:799): `m_frame = -1`. -/
def resetFrame : Int := -1

/-- `OptixDenoiserEngine::updateFrame` (optix_denoiser.cpp:773-794): if the
camera matrix or fov changed, `resetFrame()` runs first (`m_frame = -1`);
then if `m_frame >= maxFrames` return false without advancing, otherwise
`m_frame++` and return true. Returns the new `m_frame` and the bool result. -/
def updateFrame (cameraChanged : Bool) (maxFrames frame : Int) : Int × Bool :=
  let frame1 := if cameraChanged then resetFrame else frame
  if frame1 ≥ maxFrames then (frame1, false)
  else (frame1 + 1, true)

/-- One call into the frame-counter logic: `resetFrame()` (also reached from
`onFileDrop`, `createGbuffers` and the UI) or `updateFrame(cameraChanged)`
from `onRender`. -/
inductive FrameOp where
  | reset : FrameOp
  | update : Bool → FrameOp
deriving DecidableEq, Repr

/-- Effect of one call on `m_frame`. -/
def applyFrameOp (maxFrames frame : Int) : FrameOp → Int
  | .reset => resetFrame
  | .update c => (updateFrame c maxFrames frame).1

/-- `m_frame` after a sequence of calls, starting from `frame`. -/
def runFrameOps (maxFrames : Int) (frame : Int) : List FrameOp → Int
  | [] => frame
  | op :: rest => runFrameOps maxFrames (applyFrameOp maxFrames frame op) rest

/-- Record of the timeline-semaphore values produced for one denoise-active
frame: the value the render submission signals (`++m_fenceValue`, line 428),
the value handed to the denoiser (which the Cuda side waits on), the value
the Cuda side emits on completion, and the value the application's frame
command buffer waits on (`m_app->addWaitSemaphore`, lines 452-458). -/
structure DenoiseRecord where
  vulkanSignalValue : Nat
  cudaWaitValue : Nat
  cudaSignalValue : Nat
  appWaitValue : Nat
deriving DecidableEq, Repr

/-- Modelled from the spec: `DenoiserOptix::denoiseImageBuffer(fenceValue,
blendFactor)` (called at optix_denoiser.cpp:965; its body lives in
`denoiser.cpp`, which is not among the sources).  Per the spec's
DenoiseOrchestrator transition `RenderSubmitted → DenoiseRunning`, the
external denoise invocation is parameterized by the target signal value V to
wait on and the next signal value V+1 to emit on completion, and the
by-reference `fenceValue` is left at the emitted value.  Input: the current
`m_fenceValue` V.  Output: (waited value, emitted value, new `m_fenceValue`). -/
def denoiseImageBuffer (fenceValue : Nat) : Nat × Nat × Nat :=
  (fenceValue, fenceValue + 1, fenceValue + 1)

/-- The timeline-semaphore bookkeeping of one `onRender` call
(optix_denoiser.cpp:416-469) on a frame: when `needToDenoise()` holds, the
render submission signals `++m_fenceValue` (line 428), `denoiseImage()`
passes the incremented `m_fenceValue` to `denoiseImageBuffer` (line 965),
and afterwards the application wait semaphore is given the again-updated
`m_fenceValue` (line 455).  On a skipped frame `m_fenceValue` is untouched
and no record is produced.  Returns the new `m_fenceValue` and the record,
if any. -/
def renderFrameFence (fenceValue : Nat) (active : Bool) : Nat × Option DenoiseRecord :=
  if active then
    let signalValue := fenceValue + 1
    let wsn := denoiseImageBuffer signalValue
    (wsn.2.2, some { vulkanSignalValue := signalValue, cudaWaitValue := wsn.1,
                     cudaSignalValue := wsn.2.1, appWaitValue := wsn.2.2 })
  else (fenceValue, none)

/-- The denoise records of a session: one `onRender` call per list element,
the element saying whether that frame was denoise-active. -/
def sessionRecords (fenceValue : Nat) : List Bool → List DenoiseRecord
  | [] => []
  | active :: rest =>
    let s := renderFrameFence fenceValue active
    match s.2 with
    | some r => r :: sessionRecords s.1 rest
    | none => sessionRecords s.1 rest

/-- The commands `onRender` records, named after the source functions that
record them (`vkCmdUpdateBuffer` of `FrameInfo`, `raytraceScene`,
`copyImagesToCuda`, `copyCudaImagesToVulkan`, `m_tonemapper->runCompute`). -/
inductive RenderCmd where
  | updateFrameInfo : RenderCmd
  | raytraceScene : RenderCmd
  | copyImagesToCuda : RenderCmd
  | copyCudaImagesToVulkan : RenderCmd
  | tonemap : RenderCmd
deriving DecidableEq, Repr

/-- A frame's submission plan: the command buffers recorded by `onRender`
(in submission order) and, when there are two, the timeline value signaled
at the boundary between them. -/
structure FramePlan where
  buffers : List (List RenderCmd)
  boundarySignal : Option Nat
deriving DecidableEq, Repr

/-- The command-buffer structure of `onRender` (optix_denoiser.cpp:375-479)
for a frame that passed the scene-valid and `updateFrame` guards.
`optixSupported` models the `NVP_SUPPORTS_OPTIX7` compile-time flag guarding
lines 416-469.  `updateFrameInfo` and `raytraceScene` are recorded into
`cmdBuffer[0]`; when OptiX is compiled in and `needToDenoise()` holds,
`copyImagesToCuda` is recorded there too, the buffer is submitted signaling
`++m_fenceValue`, and recording continues in `cmdBuffer[1]` with
`copyCudaImagesToVulkan`; the tonemap dispatch is recorded into whichever
buffer is current before it is ended and handed to the frame. -/
def onRenderPlan (optixSupported : Bool) (s : Settings) (frame : Int)
    (fenceValue : Nat) : FramePlan :=
  let cmd0 : List RenderCmd := [RenderCmd.updateFrameInfo, RenderCmd.raytraceScene]
  if optixSupported && needToDenoise s frame then
    { buffers := [cmd0 ++ [RenderCmd.copyImagesToCuda],
                  [RenderCmd.copyCudaImagesToVulkan, RenderCmd.tonemap]],
      boundarySignal := some (fenceValue + 1) }
  else
    { buffers := [cmd0 ++ [RenderCmd.tonemap]], boundarySignal := none }

/-- `OptixDenoiserEngine::onAttach` (optix_denoiser.cpp:154-167) as it acts
on the denoise settings: when `NVP_SUPPORTS_OPTIX7` is absent the `#else`
branch executes `m_settings.denoiseApply = false`; otherwise the settings
are left as constructed. -/
def onAttachSettings (optixSupported : Bool) (s : Settings) : Settings :=
  if optixSupported then s else { s with denoiseApply := false }

/-- The `ImGui::Checkbox("Denoise", &m_settings.denoiseApply)` line of
`onUIRender` (optix_denoiser.cpp:315): the user may set `denoiseApply` to
any value at any time after startup; the checkbox is not guarded by the
OptiX support flag. -/
def uiSetDenoiseApply (b : Bool) (s : Settings) : Settings :=
  { s with denoiseApply := b }

/-- DenoiseOrchestrator states (spec section 4.4). -/
inductive OrchState where
  | idle : OrchState
  | renderSubmitted : OrchState
  | denoiseRunning : OrchState
deriving DecidableEq, Repr

/-- Atomic actions of the single CPU submission thread, named after the
source operations: the timeline-signaling submit (`vkQueueSubmit2`, line
443), the denoise invocation (`denoiseImage()`, line 447), the recording and
hand-off of the dependent second command buffer with its wait (lines
452-478), the single-buffer hand-off of a skipped frame, and buffer
reallocation (`createGbuffers` + `m_denoiser->allocateBuffers`, lines
511-536, reached from `onResize`). -/
inductive CpuAction where
  | submitRenderSignal : CpuAction
  | invokeDenoise : CpuAction
  | handDependentBuffer : CpuAction
  | handSingleBuffer : CpuAction
  | reallocBuffers : CpuAction
deriving DecidableEq, Repr

/-- Orchestrator transition for each atomic action (spec 4.4): the signaling
submission moves Idle to RenderSubmitted; the denoise invocation moves to
DenoiseRunning; handing off the dependent command buffer, whose wait
observes the denoise completion, returns to Idle (passing through the
implicit DenoiseComplete); skipped-frame hand-off and buffer reallocation
leave the state unchanged. -/
def orchStep (st : OrchState) : CpuAction → OrchState
  | CpuAction.submitRenderSignal => OrchState.renderSubmitted
  | CpuAction.invokeDenoise => OrchState.denoiseRunning
  | CpuAction.handDependentBuffer => OrchState.idle
  | CpuAction.handSingleBuffer => st
  | CpuAction.reallocBuffers => st

/-- The top-level events the application delivers to the element.  Each runs
to completion on the single CPU submission thread before the next starts:
`onRender` (with that frame's cadence decision) and `onResize`. -/
inductive AppEvent where
  | renderFrame : Bool → AppEvent
  | resize : AppEvent
deriving DecidableEq, Repr

/-- The sequence of atomic CPU actions each event performs (`onRender`:
optix_denoiser.cpp:375-479; `onResize`: lines 195-202, which call
`createGbuffers` immediately). -/
def eventActions : AppEvent → List CpuAction
  | AppEvent.renderFrame true =>
      [CpuAction.submitRenderSignal, CpuAction.invokeDenoise,
       CpuAction.handDependentBuffer]
  | AppEvent.renderFrame false => [CpuAction.handSingleBuffer]
  | AppEvent.resize => [CpuAction.reallocBuffers]

/-- Orchestrator state after a list of atomic actions. -/
def runActions (st : OrchState) (l : List CpuAction) : OrchState :=
  l.foldl orchStep st

/-- Pair each atomic action of a trace with the orchestrator state in which
it executes. -/
def traceStates (st : OrchState) : List CpuAction → List (OrchState × CpuAction)
  | [] => []
  | a :: rest => (st, a) :: traceStates (orchStep st a) rest

/-- The atomic-action trace of a session's event list. -/
def eventTrace (events : List AppEvent) : List CpuAction :=
  List.flatten (events.map eventActions)

lemma applyFrameOp_le (maxFrames frame : Int) (hM : -1 ≤ maxFrames)
    (h : frame ≤ maxFrames) (op : FrameOp) :
    applyFrameOp maxFrames frame op ≤ maxFrames := by
  cases op with
  | reset => simpa [applyFrameOp, resetFrame] using hM
  | update c =>
    cases c <;> simp [applyFrameOp, updateFrame, resetFrame] <;> split <;>
      simp_all <;> omega

lemma runFrameOps_le (maxFrames : Int) (hM : -1 ≤ maxFrames) :
    ∀ (ops : List FrameOp) (frame : Int), frame ≤ maxFrames →
      runFrameOps maxFrames frame ops ≤ maxFrames := by
  intro ops
  induction ops with
  | nil => intro frame h; simpa [runFrameOps] using h
  | cons op rest ih =>
    intro frame h
    exact ih _ (applyFrameOp_le maxFrames frame hM h op)

/-- C1: for every frameIndex in [0, maxFrames] and everyNFrames ≥ 1,
`needToDenoise` returns true iff denoising is enabled and (frameIndex =
maxFrames, or (frameIndex % everyNFrames = 0 and not (frameIndex = 0 and
denoiseFirstFrame is false))); in every other case it returns false. -/
theorem needToDenoise_spec (s : Settings) (frame : Int)
    (h0 : 0 ≤ frame) (hmax : frame ≤ s.maxFrames)
    (hN : 1 ≤ s.denoiseEveryNFrames) :
    needToDenoise s frame = true ↔
      (s.denoiseApply = true ∧
        (frame = s.maxFrames ∨
          (frame % s.denoiseEveryNFrames = 0 ∧
            ¬(frame = 0 ∧ s.denoiseFirstFrame = false)))) := by
  have htmod : Int.tmod frame s.denoiseEveryNFrames = frame % s.denoiseEveryNFrames :=
    Int.tmod_eq_emod h0 (by omega)
  unfold needToDenoise
  rw [htmod]
  by_cases hA : s.denoiseApply <;> simp [hA]
  by_cases hEq : frame = s.maxFrames <;> simp [hEq]
  by_cases hF : s.denoiseFirstFrame <;>
    by_cases h00 : frame = (0 : Int) <;>
      simp [hF, h00]

/-- Witness for `needToDenoise_spec` at frame 5, maxFrames 10, everyN 5. -/
theorem needToDenoise_spec_witness :
    let s : Settings := { maxFrames := 10, denoiseApply := true,
                          denoiseFirstFrame := false, denoiseEveryNFrames := 5 }
    needToDenoise s 5 = true ↔
      (s.denoiseApply = true ∧
        ((5 : Int) = s.maxFrames ∨
          ((5 : Int) % s.denoiseEveryNFrames = 0 ∧
            ¬((5 : Int) = 0 ∧ s.denoiseFirstFrame = false)))) :=
  needToDenoise_spec _ 5 (by decide) (by decide) (by decide)

/-- C5 counterexample: the claim asserts `shouldDisplayDenoised` returns true
once frameIndex ≥ everyNFrames, or denoiseFirstFrame is set, or
frameIndex ≥ maxFrames.  With `denoiseFirstFrame = true` but `denoiseApply =
false` (maxFrames 5, everyNFrames 1, frameIndex 0) the source's
`showDenoisedImage` nevertheless returns false, because the whole expression
is conjoined with `m_settings.denoiseApply`, which the claim omits. -/
theorem showDenoisedImage_claim_counterexample :
    (Settings.mk 5 false true 1).denoiseFirstFrame = true ∧
    showDenoisedImage (Settings.mk 5 false true 1) 0 = false := by
  constructor
  · rfl
  · decide

/-- C5 amended: provided denoising is enabled (`denoiseApply`),
`showDenoisedImage` returns true iff frameIndex ≥ everyNFrames, or
denoiseFirstFrame is set, or frameIndex ≥ maxFrames; and at frameIndex 0 with
denoiseFirstFrame false (everyNFrames ≥ 1, maxFrames ≥ 1) it returns false,
so display falls back to the raw result. -/
theorem showDenoisedImage_spec (s : Settings) (frame : Int) :
    (showDenoisedImage s frame = true ↔
      (s.denoiseApply = true ∧
        (s.denoiseEveryNFrames ≤ frame ∨ s.denoiseFirstFrame = true ∨
          s.maxFrames ≤ frame)))
    ∧ (1 ≤ s.denoiseEveryNFrames → 1 ≤ s.maxFrames →
        s.denoiseFirstFrame = false → showDenoisedImage s 0 = false) := by
  constructor
  · simp [showDenoisedImage]
    tauto
  · intro hN hM hF
    simp [showDenoisedImage, hF]
    intro _
    omega

/-- Witness for `showDenoisedImage_spec` at the default-like settings,
frame 0. -/
theorem showDenoisedImage_spec_witness :
    showDenoisedImage (Settings.mk 10 true false 5) 0 = false :=
  (showDenoisedImage_spec (Settings.mk 10 true false 5) 0).2
    (by decide) (by decide) rfl

/-- C6: with maxFrames ≥ 1, `updateFrame` with the camera changed always
resets `m_frame` to −1 and then increments, leaving `m_frame` at 0 and
returning true; with the camera unchanged it returns false without advancing
iff `m_frame ≥ maxFrames`, and otherwise increments and returns true. -/
theorem updateFrame_spec (frame maxFrames : Int) (hM : 1 ≤ maxFrames) :
    updateFrame true maxFrames frame = (0, true)
    ∧ (maxFrames ≤ frame → updateFrame false maxFrames frame = (frame, false))
    ∧ (frame < maxFrames → updateFrame false maxFrames frame = (frame + 1, true)) := by
  refine ⟨?_, ?_, ?_⟩
  · have h1 : ¬((-1 : Int) ≥ maxFrames) := by omega
    simp [updateFrame, resetFrame, h1]
  · intro h
    simp [updateFrame, resetFrame, h]
  · intro h
    have h1 : ¬(frame ≥ maxFrames) := by omega
    simp [updateFrame, resetFrame, h1]

/-- Witness for `updateFrame_spec` at frame 7, maxFrames 5 (camera change
resets to 0; unchanged camera at a frame past maxFrames stops). -/
theorem updateFrame_spec_witness :
    updateFrame true 5 7 = (0, true) ∧ updateFrame false 5 7 = (7, false) :=
  ⟨(updateFrame_spec 7 5 (by decide)).1,
   (updateFrame_spec 7 5 (by decide)).2.1 (by decide)⟩

/-- C7: for every interleaving of `updateFrame`/`resetFrame` calls with a
fixed maxFrames ≥ 1, `m_frame` starting from −1 never advances past
maxFrames, and outside of resets (an `updateFrame` call with no camera
change) it only stays or increases by exactly 1, hence is monotonically
non-decreasing between resets. -/
theorem frameOps_invariant (maxFrames : Int) (hM : 1 ≤ maxFrames) :
    (∀ ops : List FrameOp, runFrameOps maxFrames (-1) ops ≤ maxFrames)
    ∧ (∀ frame : Int,
        frame ≤ applyFrameOp maxFrames frame (FrameOp.update false)
        ∧ (applyFrameOp maxFrames frame (FrameOp.update false) = frame
           ∨ applyFrameOp maxFrames frame (FrameOp.update false) = frame + 1)) := by
  constructor
  · intro ops
    exact runFrameOps_le maxFrames (by omega) ops (-1) (by omega)
  · intro frame
    simp [applyFrameOp, updateFrame, resetFrame]
    split <;> simp

/-- Witness for `frameOps_invariant`: four increments from −1 with
maxFrames 2 are capped at 2. -/
theorem frameOps_invariant_witness :
    runFrameOps 2 (-1)
      [FrameOp.update false, FrameOp.update false,
       FrameOp.update false, FrameOp.update false] ≤ 2 :=
  (frameOps_invariant 2 (by decide)).1 _

/-- C10: for frameIndex ≥ 0, maxFrames ≥ 1 and everyNFrames in [1, 500],
whenever `needToDenoise` returns true for a frame, `showDenoisedImage` also
returns true for that frame: a denoised frame is always displayed from the
denoised buffer. -/
theorem needToDenoise_implies_show (s : Settings) (frame : Int)
    (h0 : 0 ≤ frame) (hM : 1 ≤ s.maxFrames)
    (hN1 : 1 ≤ s.denoiseEveryNFrames) (hN2 : s.denoiseEveryNFrames ≤ 500)
    (hd : needToDenoise s frame = true) :
    showDenoisedImage s frame = true := by
  cases hA : s.denoiseApply with
  | false => simp [needToDenoise, hA] at hd
  | true =>
    have key : s.denoiseEveryNFrames ≤ frame ∨ s.denoiseFirstFrame = true ∨
        s.maxFrames ≤ frame := by
      simp only [needToDenoise, hA, if_true] at hd
      by_cases hEq : frame = s.maxFrames
      · exact Or.inr (Or.inr (le_of_eq hEq.symm))
      · rw [if_neg hEq] at hd
        by_cases hF : s.denoiseFirstFrame = true
        · exact Or.inr (Or.inl hF)
        · have hF0 : s.denoiseFirstFrame = false := by
            cases hx : s.denoiseFirstFrame
            · rfl
            · exact absurd hx hF
          by_cases h00 : frame = (0 : Int)
          · simp [hF0, h00] at hd
          · rw [if_neg (by simp [h00])] at hd
            have htm : Int.tmod frame s.denoiseEveryNFrames =
                frame % s.denoiseEveryNFrames := Int.tmod_eq_emod h0 (by omega)
            rw [htm] at hd
            by_cases hz : frame % s.denoiseEveryNFrames = 0
            · exact Or.inl (Int.le_of_dvd (by omega) (Int.dvd_of_emod_eq_zero hz))
            · rw [if_neg hz] at hd
              exact absurd hd (by simp)
    simp only [showDenoisedImage, hA, Bool.true_and, Bool.or_eq_true,
      decide_eq_true_eq]
    tauto

/-- Witness for `needToDenoise_implies_show` at frame 100 with the default
settings (everyNFrames 100): frame 100 is denoised and displayed denoised. -/
theorem needToDenoise_implies_show_witness :
    showDenoisedImage Settings.default 100 = true :=
  needToDenoise_implies_show Settings.default 100 (by decide) (by decide)
    (by decide) (by decide) (by decide)

lemma sessionRecords_cons_false (fenceValue : Nat) (rest : List Bool) :
    sessionRecords fenceValue (false :: rest) = sessionRecords fenceValue rest := rfl

lemma sessionRecords_cons_true (fenceValue : Nat) (rest : List Bool) :
    sessionRecords fenceValue (true :: rest) =
      { vulkanSignalValue := fenceValue + 1, cudaWaitValue := fenceValue + 1,
        cudaSignalValue := fenceValue + 2, appWaitValue := fenceValue + 2 }
        :: sessionRecords (fenceValue + 2) rest := rfl

lemma sessionRecords_get? (frames : List Bool) :
    ∀ (fenceValue k : Nat), k < (sessionRecords fenceValue frames).length →
      (sessionRecords fenceValue frames)[k]? =
        some { vulkanSignalValue := fenceValue + 2 * k + 1,
               cudaWaitValue := fenceValue + 2 * k + 1,
               cudaSignalValue := fenceValue + 2 * k + 2,
               appWaitValue := fenceValue + 2 * k + 2 } := by
  induction frames with
  | nil =>
    intro fenceValue k hk
    simp [sessionRecords] at hk
  | cons active rest ih =>
    intro fenceValue k hk
    cases active with
    | false =>
      rw [sessionRecords_cons_false] at hk ⊢
      exact ih fenceValue k hk
    | true =>
      rw [sessionRecords_cons_true] at hk ⊢
      cases k with
      | zero => simp
      | succ k =>
        rw [List.getElem?_cons_succ,
          ih (fenceValue + 2) k (by simpa using hk)]
        simp only [Option.some.injEq, DenoiseRecord.mk.injEq]
        omega

lemma sessionRecords_get (frames : List Bool) (fenceValue k : Nat)
    (hk : k < (sessionRecords fenceValue frames).length) :
    (sessionRecords fenceValue frames).get ⟨k, hk⟩ =
      { vulkanSignalValue := fenceValue + 2 * k + 1,
        cudaWaitValue := fenceValue + 2 * k + 1,
        cudaSignalValue := fenceValue + 2 * k + 2,
        appWaitValue := fenceValue + 2 * k + 2 } := by
  have h2 := sessionRecords_get? frames fenceValue k hk
  have h3 : (sessionRecords fenceValue frames)[k]? =
      some ((sessionRecords fenceValue frames).get ⟨k, hk⟩) := by
    rw [List.getElem?_eq_getElem hk, List.get_eq_getElem]
  rw [h3] at h2
  exact Option.some.inj h2

/-- C2: across any session (any sequence of frames, each denoise-active or
not, starting from `m_fenceValue = 0`), the k-th denoise invocation waits on
exactly the k-th denoise-active submission's signal value, that signal is a
freshly incremented value (2k+1), the invocation's completion consumes
exactly one further increment (it emits 2k+2, so successive active frames
use the consecutive values 1, 2, 3, ... with none reused or skipped), and no
two invocations share a wait value. -/
theorem timeline_signal_discipline (frames : List Bool) (k : Nat)
    (hk : k < (sessionRecords 0 frames).length) :
    ((sessionRecords 0 frames).get ⟨k, hk⟩).cudaWaitValue
        = ((sessionRecords 0 frames).get ⟨k, hk⟩).vulkanSignalValue
    ∧ ((sessionRecords 0 frames).get ⟨k, hk⟩).vulkanSignalValue = 2 * k + 1
    ∧ ((sessionRecords 0 frames).get ⟨k, hk⟩).cudaSignalValue = 2 * k + 2
    ∧ (∀ (j : Nat) (hj : j < (sessionRecords 0 frames).length),
        ((sessionRecords 0 frames).get ⟨j, hj⟩).cudaWaitValue
            = ((sessionRecords 0 frames).get ⟨k, hk⟩).cudaWaitValue → j = k) := by
  rw [sessionRecords_get frames 0 k hk]
  refine ⟨rfl, by simp, by simp, ?_⟩
  intro j hj hEq
  rw [sessionRecords_get frames 0 j hj] at hEq
  simp only at hEq
  omega

/-- Witness for `timeline_signal_discipline`: in the session
[active, skipped, active], the second invocation (k = 1) waits on its own
submission's signal value. -/
theorem timeline_signal_discipline_witness :
    ((sessionRecords 0 [true, false, true]).get ⟨1, by decide⟩).cudaWaitValue
      = ((sessionRecords 0 [true, false, true]).get ⟨1, by decide⟩).vulkanSignalValue :=
  (timeline_signal_discipline [true, false, true] 1 (by decide)).1

/-- C3: on every denoise-active frame, with running `m_fenceValue` f the
render submission signals V = f+1, the denoise invocation is issued waiting
on that same V, and the frame's resuming command buffer (copy-out and
display) is gated by a wait on V+1, which the denoiser emits on completion;
`m_fenceValue` ends at f+2. -/
theorem denoise_frame_gating (fenceValue : Nat) :
    ∃ r : DenoiseRecord,
      renderFrameFence fenceValue true = (fenceValue + 2, some r)
      ∧ r.vulkanSignalValue = fenceValue + 1
      ∧ r.cudaWaitValue = r.vulkanSignalValue
      ∧ r.appWaitValue = r.vulkanSignalValue + 1
      ∧ r.cudaSignalValue = r.appWaitValue :=
  ⟨_, rfl, rfl, rfl, rfl, rfl⟩

/-- C4: for every frame that reaches command recording, `onRender` produces
exactly one command buffer when the cadence decision is to skip denoising,
recording scene update, ray trace, then tonemap; and exactly two command
buffers when denoising is active, the first recording scene update, ray
trace, copy-in to the denoiser and ending at the signaling submission
boundary, the second recording copy-out from the denoiser then tonemap. -/
theorem onRenderPlan_spec (s : Settings) (frame : Int) (fenceValue : Nat) :
    (needToDenoise s frame = false →
      onRenderPlan true s frame fenceValue =
        { buffers := [[RenderCmd.updateFrameInfo, RenderCmd.raytraceScene,
                       RenderCmd.tonemap]],
          boundarySignal := none })
    ∧ (needToDenoise s frame = true →
      onRenderPlan true s frame fenceValue =
        { buffers := [[RenderCmd.updateFrameInfo, RenderCmd.raytraceScene,
                       RenderCmd.copyImagesToCuda],
                      [RenderCmd.copyCudaImagesToVulkan, RenderCmd.tonemap]],
          boundarySignal := some (fenceValue + 1) }) := by
  constructor <;> intro h <;> simp [onRenderPlan, h]

/-- Witness for `onRenderPlan_spec`: with the default settings, frame 1 is
skipped (one buffer) and frame 100 is denoised (two buffers). -/
theorem onRenderPlan_spec_witness :
    onRenderPlan true Settings.default 1 0 =
      { buffers := [[RenderCmd.updateFrameInfo, RenderCmd.raytraceScene,
                     RenderCmd.tonemap]],
        boundarySignal := none }
    ∧ onRenderPlan true Settings.default 100 5 =
      { buffers := [[RenderCmd.updateFrameInfo, RenderCmd.raytraceScene,
                     RenderCmd.copyImagesToCuda],
                    [RenderCmd.copyCudaImagesToVulkan, RenderCmd.tonemap]],
        boundarySignal := some 6 } :=
  ⟨(onRenderPlan_spec Settings.default 1 0).1 (by decide),
   (onRenderPlan_spec Settings.default 100 5).2 (by decide)⟩

/-- C9 counterexample: the claim says that when OptiX is unavailable the
disablement is permanent and `needToDenoise` reports false for the whole
session.  But the Denoise checkbox of `onUIRender` is not guarded by the
support flag: after `onAttach` in an unsupported build sets `denoiseApply`
to false, a UI event can set it back to true, after which `needToDenoise`
reports true at frame 100 under the default cadence settings. -/
theorem unsupported_disable_counterexample :
    needToDenoise
      (uiSetDenoiseApply true (onAttachSettings false Settings.default)) 100 = true := by
  decide

/-- C9 amended: in a build without OptiX support, `onAttach` sets
`denoiseApply` to false, so `needToDenoise` reports false on every frame
until the user re-enables the unguarded UI checkbox; independently of the
flag, the denoise branch of `onRender` is compiled out, so every frame of
the session produces a single pass-through command buffer with no
cross-device boundary, and that cannot be changed after startup. -/
theorem unsupported_passthrough (s s2 : Settings) (frame frame2 : Int)
    (fenceValue : Nat) :
    needToDenoise (onAttachSettings false s) frame = false
    ∧ (onRenderPlan false s2 frame2 fenceValue).buffers =
        [[RenderCmd.updateFrameInfo, RenderCmd.raytraceScene, RenderCmd.tonemap]]
    ∧ (onRenderPlan false s2 frame2 fenceValue).boundarySignal = none := by
  refine ⟨?_, ?_, ?_⟩
  · simp [onAttachSettings, needToDenoise]
  · simp [onRenderPlan]
  · simp [onRenderPlan]

lemma traceStates_append (st : OrchState) (l1 l2 : List CpuAction) :
    traceStates st (l1 ++ l2) =
      traceStates st l1 ++ traceStates (runActions st l1) l2 := by
  induction l1 generalizing st with
  | nil => simp [traceStates, runActions]
  | cons a rest ih =>
    simp [traceStates, runActions, List.foldl] at ih ⊢
    exact ih (orchStep st a)

lemma runActions_event_idle (e : AppEvent) :
    runActions OrchState.idle (eventActions e) = OrchState.idle := by
  cases e with
  | renderFrame b => cases b <;> rfl
  | resize => rfl

lemma event_realloc_idle (e : AppEvent) :
    ∀ p ∈ traceStates OrchState.idle (eventActions e),
      p.2 = CpuAction.reallocBuffers → p.1 = OrchState.idle := by
  cases e with
  | renderFrame b => cases b <;> decide
  | resize => decide

/-- C8: in the single-CPU-submission-thread model, for every sequence of
application events (render frames with or without denoise, resize requests),
every buffer-reallocation action (`onResize`, running `createGbuffers` and
the denoiser's transfer-buffer reallocation) executes with the
DenoiseOrchestrator in the Idle state: no reallocation ever runs while a
denoise is RenderSubmitted or DenoiseRunning, because `onRender` returns the
orchestrator to Idle before the thread can service a resize. -/
theorem resize_only_in_idle (events : List AppEvent)
    (p : OrchState × CpuAction)
    (hp : p ∈ traceStates OrchState.idle (eventTrace events))
    (hr : p.2 = CpuAction.reallocBuffers) : p.1 = OrchState.idle := by
  induction events with
  | nil => simp [eventTrace, traceStates] at hp
  | cons e rest ih =>
    have hTr : eventTrace (e :: rest) = eventActions e ++ eventTrace rest := by
      simp [eventTrace]
    rw [hTr, traceStates_append, runActions_event_idle] at hp
    rcases List.mem_append.mp hp with hp1 | hp2
    · exact event_realloc_idle e p hp1 hr
    · exact ih hp2

/-- Witness for `resize_only_in_idle`: in the session [denoised frame,
resize], the reallocation executes in the Idle state. -/
theorem resize_only_in_idle_witness :
    ((OrchState.idle, CpuAction.reallocBuffers) : OrchState × CpuAction).1
      = OrchState.idle :=
  resize_only_in_idle [AppEvent.renderFrame true, AppEvent.resize]
    (OrchState.idle, CpuAction.reallocBuffers) (by decide) rfl

end OptixDenoise
